import Mathlib

/-!
Verification of the basket price validation and the two HTTP request handlers of
the catkapinda storefront repository.

Shallow embedding notes:
- JavaScript numbers are modelled as rationals; the literal 0.01 of the source is
  the exact rational 1/100.  The source applies parseFloat to values that are
  already numbers, which is the identity and is therefore dropped.
- The route src/app/api/payment/iyzico/initialize/route.ts contributes
  parseCartItemId, validateBasketPrices and the POST handler; the route
  src/app/api/customer/magic-login/route.ts contributes its POST handler.
- External collaborators (JSON body parsing, the zod schema check, the supabase
  catalog, the payment gateway, the link generator, the email sender) are
  modelled as parameters of an environment record; a collaborator that can throw
  is modelled as an Except JsError value.  The catch blocks at the handler
  boundaries are modelled explicitly.
- Error responses carry their data structurally (constructor arguments) instead
  of the interpolated Turkish message strings of the source; the fixed message
  strings that carry no data are kept verbatim.
-/

namespace Catkapinda

/-- Character class of the JavaScript whitespace skipped by parseInt
(ASCII part; the inputs of interest contain no exotic whitespace). -/
def jsWhitespaceChar (c : Char) : Bool :=
  decide (c = ' ') || decide (c = '\t') || decide (c = '\n') || decide (c = '\r')
    || decide (c = '\x0b') || decide (c = '\x0c')

/-- Decimal digit test used by the model of parseInt(s, 10). -/
def isAsciiDigit (c : Char) : Bool := decide ('0' ≤ c) && decide (c ≤ '9')

/-- Numeric value of a list of decimal digits. -/
def digitsVal (ds : List Char) : Nat := ds.foldl (fun a c => a * 10 + (c.toNat - 48)) 0

/-- Model of the JavaScript call parseInt(s, 10): skip leading whitespace, read an
optional sign, then take the longest run of decimal digits; NaN (modelled as none)
when that run is empty, otherwise the signed value of the run.  Trailing
characters are ignored, exactly as in JavaScript. -/
def parseIntBase10 (s : String) : Option Int :=
  let afterWs := s.data.dropWhile jsWhitespaceChar
  let signed : Int × List Char :=
    match afterWs with
    | '-' :: cs => (-1, cs)
    | '+' :: cs => (1, cs)
    | cs => (1, cs)
  let digits := signed.2.takeWhile isAsciiDigit
  if digits = [] then none else some (signed.1 * (digitsVal digits : Int))

/-- Splitting accumulator mirroring the JavaScript String.prototype.split with a
single-character separator. -/
def splitCharAux (sep : Char) : List Char → List Char → List (List Char)
  | [], acc => [acc.reverse]
  | c :: cs, acc =>
    if c = sep then acc.reverse :: splitCharAux sep cs []
    else splitCharAux sep cs (c :: acc)

/-- Model of the JavaScript call s.split(sep) for a one-character separator. -/
def jsSplitChar (sep : Char) (s : String) : List String :=
  (splitCharAux sep s.data []).map (fun l => String.mk l)

/-- Model of the JavaScript call s.startsWith(pre). -/
def jsStartsWith (s pre : String) : Bool := pre.data.isPrefixOf s.data

/-- Hexadecimal digit test for the UUID pattern (case-insensitive flag i). -/
def isHexChar (c : Char) : Bool :=
  (decide ('0' ≤ c) && decide (c ≤ '9')) || (decide ('a' ≤ c) && decide (c ≤ 'f'))
    || (decide ('A' ≤ c) && decide (c ≤ 'F'))

/-- Group check for the UUID pattern: exact length and hex digits only. -/
def uuidGroupOk (g : List Char) (n : Nat) : Bool := decide (g.length = n) && g.all isHexChar

/-- Model of the anchored regular expression test of the source,
uuidPattern.test(cartItemId) with the 8-4-4-4-12 hexadecimal shape: the string
matches exactly when it splits on the hyphen into five groups of the right
lengths consisting of hex digits. -/
def uuidPatternTest (s : String) : Bool :=
  match splitCharAux '-' s.data [] with
  | [a, b, c, d, e] =>
    uuidGroupOk a 8 && uuidGroupOk b 4 && uuidGroupOk c 4 && uuidGroupOk d 4
      && uuidGroupOk e 12
  | _ => false

/-- Result values of parseCartItemId: the source function returns a number
(legacy product id), a string (UUID candidate), or null (modelled as none in
an Option around this type). -/
inductive ParsedId where
  | legacy (n : Int)
  | uuid (s : String)
deriving DecidableEq

/-- Model of the source function parseCartItemId (payment route, lines 61-95).
Cart ids of the form cart_X_... have their second underscore-separated segment
extracted; parseInt is tried first and the segment is kept as a string
otherwise.  Ids without the cart_ prefix are tried as a whole: parseInt first,
then the UUID pattern, else null.  The try/catch of the source is dead in this
pure model. -/
def parseCartItemId (cartItemId : String) : Option ParsedId :=
  let direct :=
    match parseIntBase10 cartItemId with
    | some numericId =>
      if numericId > 0 then some (ParsedId.legacy numericId)
      else if uuidPatternTest cartItemId then some (ParsedId.uuid cartItemId)
      else none
    | none =>
      if uuidPatternTest cartItemId then some (ParsedId.uuid cartItemId)
      else none
  if jsStartsWith cartItemId "cart_" then
    let parts := jsSplitChar '_' cartItemId
    if parts.length ≥ 2 then
      let productIdPart := parts.getD 1 ""
      match parseIntBase10 productIdPart with
      | some legacyId =>
        if legacyId > 0 then some (ParsedId.legacy legacyId)
        else some (ParsedId.uuid productIdPart)
      | none => some (ParsedId.uuid productIdPart)
    else direct
  else direct

/-- JavaScript falsiness of the value returned by parseCartItemId, as consumed
by the check if (!actualProductId) in validateBasketPrices: null is falsy, a
number is falsy exactly when zero (NaN is never returned), a string is falsy
exactly when empty. -/
def jsFalsy : Option ParsedId → Bool
  | none => true
  | some (ParsedId.legacy n) => decide (n = 0)
  | some (ParsedId.uuid s) => decide (s = "")

/-- Basket line item as sent by the untrusted client (and also the shape of the
validated items the validator builds, since the pushed records have the same
four fields). -/
structure BasketItem where
  id : String
  name : String
  category : String
  price : ℚ
deriving DecidableEq

/-- Trusted product row selected from the products table
(columns id, name, price, legacy_id). -/
structure ProductRecord where
  id : String
  name : String
  price : ℚ
  legacy_id : Option Int
deriving DecidableEq

/-- Catalog collaborator: the two supabase lookups of the source, by the
legacy_id column for numeric ids and by the id column for UUID strings; single()
yields at most one row. -/
structure Catalog where
  byLegacyId : Int → Option ProductRecord
  byUuid : String → Option ProductRecord

/-- Dispatch of the catalog lookup on the type of the parsed product id,
mirroring the typeof actualProductId === number branch of the source. -/
def lookupProduct (catalog : Catalog) : ParsedId → Option ProductRecord
  | ParsedId.legacy n => catalog.byLegacyId n
  | ParsedId.uuid s => catalog.byUuid s

/-- Failure data of validateBasketPrices.  The source renders these into
Turkish message strings; each constructor carries exactly the data interpolated
into the corresponding message. -/
inductive BasketError where
  | invalidIdFormat (item : BasketItem)
  | productNotFound (item : BasketItem) (actualProductId : ParsedId)
  | priceMismatch (item : BasketItem) (product : ProductRecord) (dbPrice clientPrice : ℚ)
deriving DecidableEq

/-- Offending basket item named by a validation failure (every error message of
the source identifies the item it was raised for). -/
def BasketError.item : BasketError → BasketItem
  | BasketError.invalidIdFormat item => item
  | BasketError.productNotFound item _ => item
  | BasketError.priceMismatch item _ _ _ => item

/-- Tolerance constant of the per-item check (source line 175): 1 percent. -/
def tolerancePercentage : ℚ := 1 / 100

/-- Body of one iteration of the validation loop of validateBasketPrices
(source lines 113-207): parse the cart item id, reject falsy results, look the
product up, reject a missing product, then compare the client price against the
database price with the relative tolerance; on success the trusted product row
is the result. -/
def validateItemStep (catalog : Catalog) (item : BasketItem) :
    Except BasketError ProductRecord :=
  match parseCartItemId item.id with
  | none => Except.error (BasketError.invalidIdFormat item)
  | some actualProductId =>
    if jsFalsy (some actualProductId) then Except.error (BasketError.invalidIdFormat item)
    else
      match lookupProduct catalog actualProductId with
      | none => Except.error (BasketError.productNotFound item actualProductId)
      | some product =>
        if |product.price - item.price| > product.price * tolerancePercentage then
          Except.error (BasketError.priceMismatch item product product.price item.price)
        else Except.ok product

/-- Loop of validateBasketPrices over the basket in input order, carrying the
accumulating validatedItems list and the running calculatedTotal, aborting with
the error of the first failing item. -/
def validateLoop (catalog : Catalog) :
    List BasketItem → List BasketItem → ℚ → Except BasketError (List BasketItem × ℚ)
  | [], validatedItems, calculatedTotal => Except.ok (validatedItems, calculatedTotal)
  | item :: rest, validatedItems, calculatedTotal =>
    match validateItemStep catalog item with
    | Except.error e => Except.error e
    | Except.ok product =>
      validateLoop catalog rest
        (validatedItems ++
          [{id := product.id, name := product.name, category := item.category,
            price := product.price}])
        (calculatedTotal + product.price)

/-- Model of the source function validateBasketPrices (payment route, lines
100-227).  The source returns an object isValid=false with a message, or
isValid=true with validatedItems and calculatedTotal; this is the Except
rendering of the same result.  The validated item pushed for each input item is
id and name and price from the database row and category from the client. -/
def validateBasketPrices (catalog : Catalog) (basketItems : List BasketItem) :
    Except BasketError (List BasketItem × ℚ) :=
  validateLoop catalog basketItems [] 0

/-- Condition of the total check of the POST handler (source lines 281-283):
the absolute difference of the validated total and the client total exceeds the
absolute constant 0.01. -/
def totalDifferenceExceeded (validatedTotal clientTotal : ℚ) : Bool :=
  decide (|validatedTotal - clientTotal| > 1 / 100)

/-- Payment request payload, restricted to the fields the validation logic
reads or writes (order number, client amount, basket items); the buyer, address
and card blocks of the zod schema are carried through the handler untouched by
the modelled logic and are omitted. -/
structure PaymentRequest where
  orderNumber : String
  amount : ℚ
  basketItems : List BasketItem
deriving DecidableEq

/-- Error discriminants of the payment route responses.  Each constructor
stands for one distinct response site of the source and carries the data
interpolated into its message. -/
inductive IyzicoError where
  | invalidFormat
  | securityValidation (e : BasketError)
  | totalManipulation (validatedTotal clientTotal : ℚ)
  | systemInactive
  | gatewayError (message : Option String) (code : Option String)
  | unexpected
deriving DecidableEq

/-- Success payload returned to the caller after a successful gateway call. -/
structure GatewayData where
  paymentId : Option String
  conversationId : Option String
  htmlContent : Option String
  threeDSHtmlContent : Option String
deriving DecidableEq

/-- JSON response of the payment route. -/
structure IyzicoResponse where
  status : Nat
  success : Bool
  error : Option IyzicoError := none
  data : Option GatewayData := none
deriving DecidableEq

/-- Result object of the payment gateway collaborator
initiate3DSecurePayment. -/
structure GatewayResult where
  success : Bool
  paymentId : Option String := none
  conversationId : Option String := none
  htmlContent : Option String := none
  threeDSHtmlContent : Option String := none
  errorMessage : Option String := none
  errorCode : Option String := none
deriving DecidableEq

/-- Exception value thrown by a collaborator; only the message field is
observable in a response (the stack is only logged). -/
structure JsError where
  message : String
deriving DecidableEq

/-- Opaque stand-in for the parsed JSON request body handed to the zod
schema check. -/
structure RawJson where
  raw : String
deriving DecidableEq

/-- Security section of the POST handler of the payment route (lines 260-313):
run validateBasketPrices (failure gives the 400 security response), overwrite
basketItems with the validated items, run the total check against the client
amount (failure gives the 400 total manipulation response), overwrite amount
with the validated total, then require the gateway settings (absence gives the
503 response).  The ok value is exactly the sanitized request later handed to
initiate3DSecurePayment.  The source mutates basketItems before the total check
and amount after it; since the total check reads the untouched amount field,
both overwrites are applied together in the ok value here. -/
def iyzicoPrepare (catalog : Catalog) (settingsPresent : Bool)
    (paymentRequest : PaymentRequest) : Except IyzicoResponse PaymentRequest :=
  match validateBasketPrices catalog paymentRequest.basketItems with
  | Except.error e =>
    Except.error {status := 400, success := false,
                  error := some (IyzicoError.securityValidation e)}
  | Except.ok (validatedItems, validatedTotal) =>
    if totalDifferenceExceeded validatedTotal paymentRequest.amount then
      Except.error {status := 400, success := false,
                    error := some (IyzicoError.totalManipulation validatedTotal
                      paymentRequest.amount)}
    else if settingsPresent = false then
      Except.error {status := 503, success := false,
                    error := some IyzicoError.systemInactive}
    else
      Except.ok
        {paymentRequest with basketItems := validatedItems, amount := validatedTotal}

/-- Environment of the payment route POST handler: collaborator outcomes for
one request.  Collaborators that can throw are Except valued. -/
structure IyzicoEnv where
  jsonBody : Except JsError RawJson
  schemaParse : RawJson → Option PaymentRequest
  supabaseClient : Except JsError Catalog
  settingsPresent : Bool
  gateway : PaymentRequest → Except JsError GatewayResult

/-- Response assembled from the gateway result (source lines 416-441): 200 with
the 3DS payload on success, 400 with the gateway error data otherwise.  The two
persistence inserts that precede this on success sit inside their own try/catch
and never change the response. -/
def gatewayResponse (r : GatewayResult) : IyzicoResponse :=
  if r.success then
    {status := 200, success := true,
     data := some {paymentId := r.paymentId, conversationId := r.conversationId,
                   htmlContent := r.htmlContent,
                   threeDSHtmlContent := r.threeDSHtmlContent}}
  else
    {status := 400, success := false,
     error := some (IyzicoError.gatewayError r.errorMessage r.errorCode)}

/-- Body of the payment route POST handler inside its try block: parse the JSON
body (may throw), run the zod schema (failure gives the 400 format response),
create the supabase client (may throw), run the security section, then call the
gateway (may throw) on the sanitized request and convert its result. -/
def iyzicoPostBody (env : IyzicoEnv) : Except JsError IyzicoResponse := do
  let raw ← env.jsonBody
  match env.schemaParse raw with
  | none => return {status := 400, success := false, error := some IyzicoError.invalidFormat}
  | some paymentRequest =>
    let catalog ← env.supabaseClient
    match iyzicoPrepare catalog env.settingsPresent paymentRequest with
    | Except.error earlyResponse => return earlyResponse
    | Except.ok sanitized =>
      let paymentResult ← env.gateway sanitized
      return gatewayResponse paymentResult

/-- Catch block at the boundary of the payment route POST handler (lines
443-453): any exception becomes the fixed generic 500 response; the exception
details are only logged. -/
def iyzicoCatchBoundary : Except JsError IyzicoResponse → IyzicoResponse
  | Except.ok r => r
  | Except.error _ =>
    {status := 500, success := false, error := some IyzicoError.unexpected}

/-- Complete payment route POST handler: the try body wrapped in the boundary
catch. -/
def iyzicoPost (env : IyzicoEnv) : IyzicoResponse :=
  iyzicoCatchBoundary (iyzicoPostBody env)

/-- Result object of the magic link generator collaborator
generateMagicLoginLink. -/
structure GenLinkResult where
  success : Bool
  loginUrl : Option String := none
  error : Option String := none
deriving DecidableEq

/-- JSON response of the magic-login route.  A field holding none is absent
from the emitted JSON (undefined in the source). -/
structure MagicLoginResponse where
  status : Nat
  success : Bool
  error : Option String := none
  message : Option String := none
  loginUrl : Option String := none
deriving DecidableEq

/-- Environment of the magic-login route POST handler: collaborator outcomes
for one request.  schemaParse models the zod email check and yields the email
exactly when the body is valid; nodeEnv models process.env.NODE_ENV and appUrl
models process.env.NEXT_PUBLIC_APP_URL. -/
structure MagicLoginEnv where
  jsonBody : Except JsError RawJson
  schemaParse : RawJson → Option String
  appUrl : Option String
  generateLink : String → String → Except JsError GenLinkResult
  sendEmail : String → Option String → Except JsError Bool
  nodeEnv : String

/-- Body of the magic-login route POST handler inside its try block (lines
11-60): parse the JSON body (may throw), run the zod email schema (failure
gives the 400 response), generate the link (failure gives a 500 with the
generator error), send the email (false gives the fixed 500 message), and on
success answer 200 with the fixed confirmation message and, only when NODE_ENV
is the string development, the generated login url. -/
def magicLoginBody (env : MagicLoginEnv) : Except JsError MagicLoginResponse := do
  let raw ← env.jsonBody
  match env.schemaParse raw with
  | none =>
    return {status := 400, success := false, error := some "Geçersiz e-mail adresi"}
  | some email =>
    let baseUrl := env.appUrl.getD "http://localhost:3000"
    let result ← env.generateLink email baseUrl
    if result.success = false then
      return {status := 500, success := false, error := result.error}
    else
      let emailSent ← env.sendEmail email result.loginUrl
      if emailSent = false then
        return {status := 500, success := false,
                error := some "E-mail gönderilemedi. Lütfen tekrar deneyin."}
      else
        return {status := 200, success := true,
                message := some "Giriş linki oluşturuldu ve e-mail gönderildi. E-mail kutunuzu kontrol edin.",
                loginUrl := if env.nodeEnv = "development" then result.loginUrl else none}

/-- Catch block at the boundary of the magic-login route POST handler (lines
61-67): the 500 response embeds the message of the caught exception after the
fixed prefix, falling back to a fixed word for an empty (falsy) message. -/
def magicLoginCatch (e : JsError) : MagicLoginResponse :=
  {status := 500, success := false,
   error := some ("Sunucu hatası: " ++ (if e.message = "" then "Bilinmeyen hata" else e.message))}

/-- Complete magic-login route POST handler: the try body wrapped in the
boundary catch. -/
def magicLoginPost (env : MagicLoginEnv) : MagicLoginResponse :=
  match magicLoginBody env with
  | Except.ok r => r
  | Except.error e => magicLoginCatch e

/-- Combined resolution of one basket item, used to phrase hypotheses about
items the validator accepts past its lookup stage: the parsed id when it is not
falsy, resolved through the catalog. -/
def resolveItem (catalog : Catalog) (item : BasketItem) : Option ProductRecord :=
  match parseCartItemId item.id with
  | none => none
  | some pid => if jsFalsy (some pid) then none else lookupProduct catalog pid

/-- Validated list the loop builds on full success: for each input item, id and
name and price come from the resolved product row and category from the client
item. -/
def validatedOf (items : List BasketItem) (resolved : List ProductRecord) :
    List BasketItem :=
  (items.zip resolved).map
    (fun p => {id := p.2.id, name := p.2.name, category := p.1.category, price := p.2.price})

/-- Sum of the trusted catalog prices of a resolved product list. -/
def catalogTotal (resolved : List ProductRecord) : ℚ := (resolved.map (·.price)).sum

/-- Modelled from the words of the spec for comparison in claim C6 (the source
is the authority): the whole string is a base-10 numeral of a positive
integer. -/
def wholeStringPosIntNumeral (s : String) : Bool :=
  decide (s.data ≠ []) && s.data.all isAsciiDigit && decide (digitsVal s.data > 0)

/-- Demo catalog row with legacy id 1 and price 100 (the worked example of the
spec uses catalog prices 1 at 100 and 2 at 50). -/
def demoProduct1 : ProductRecord :=
  {id := "11111111-1111-4111-8111-111111111111", name := "Product One",
   price := 100, legacy_id := some 1}

/-- Demo catalog row with legacy id 2 and price 50. -/
def demoProduct2 : ProductRecord :=
  {id := "22222222-2222-4222-8222-222222222222", name := "Product Two",
   price := 50, legacy_id := some 2}

/-- Demo catalog row with legacy id 77 and price 100. -/
def demoProduct77 : ProductRecord :=
  {id := "77777777-7777-4777-8777-777777777777", name := "Product 77",
   price := 100, legacy_id := some 77}

/-- Concrete demo catalog with the three rows above. -/
def demoCatalog : Catalog where
  byLegacyId n :=
    if n = 1 then some demoProduct1
    else if n = 2 then some demoProduct2
    else if n = 77 then some demoProduct77
    else none
  byUuid s :=
    if s = "11111111-1111-4111-8111-111111111111" then some demoProduct1
    else if s = "22222222-2222-4222-8222-222222222222" then some demoProduct2
    else if s = "77777777-7777-4777-8777-777777777777" then some demoProduct77
    else none

/-- Basket item naming product 77 by its bare legacy id with the honest
price. -/
def demoItem77 : BasketItem :=
  {id := "77", name := "Product 77", category := "demo", price := 100}

/-- Item for the per-item tolerance boundary: client price 101 against catalog
price 100 (difference exactly equal to the 1 percent threshold). -/
def boundaryItem101 : BasketItem := {demoItem77 with price := 101}

/-- Item just past the per-item tolerance boundary: client price 101.01. -/
def boundaryItem10101 : BasketItem := {demoItem77 with price := 10101 / 100}

/-- Validated form of demoItem77: trusted id, name and price, client
category. -/
def demoValidated77 : BasketItem :=
  {id := "77777777-7777-4777-8777-777777777777", name := "Product 77",
   category := "demo", price := 100}

/-- First item of the short-circuit example of the spec: cart id for product 1
with the honest price 100. -/
def goodItem1 : BasketItem :=
  {id := "cart_1_a_1_1", name := "Product One", category := "demo", price := 100}

/-- Second item of the short-circuit example: cart id for product 2 with the
manipulated price 9999 against catalog price 50. -/
def badItem2 : BasketItem :=
  {id := "cart_2_a_1_1", name := "Product Two", category := "demo", price := 9999}

/-- Trailing item behind the failure, never reached by the loop. -/
def ghostItem3 : BasketItem :=
  {id := "cart_3_a_1_1", name := "Ghost", category := "demo", price := 1}

/-- Demo payment request with the honest amount. -/
def demoPaymentReq : PaymentRequest :=
  {orderNumber := "ORD-1", amount := 100, basketItems := [demoItem77]}

/-- Demo request for the total boundary: client amount 100.01 against validated
total 100. -/
def demoReq10001 : PaymentRequest := {demoPaymentReq with amount := 10001 / 100}

/-- Demo request just past the total boundary: client amount 100.02. -/
def demoReq10002 : PaymentRequest := {demoPaymentReq with amount := 10002 / 100}

/-- Sanitized form of the demo request: validated items and validated total. -/
def demoSanitizedReq : PaymentRequest :=
  {orderNumber := "ORD-1", amount := 100, basketItems := [demoValidated77]}

/-- Successful demo gateway result. -/
def demoGatewayResult : GatewayResult :=
  {success := true, paymentId := some "p1", conversationId := some "c1",
   htmlContent := some "<html>", threeDSHtmlContent := some "<form>"}

/-- Demo environment of the payment route in which every collaborator
succeeds. -/
def demoIyzicoEnv : IyzicoEnv where
  jsonBody := Except.ok {raw := "payload"}
  schemaParse _ := some demoPaymentReq
  supabaseClient := Except.ok demoCatalog
  settingsPresent := true
  gateway _ := Except.ok demoGatewayResult

/-- Payment route environment whose JSON body parse throws. -/
def boomIyzicoEnv : IyzicoEnv where
  jsonBody := Except.error {message := "boom"}
  schemaParse _ := none
  supabaseClient := Except.ok demoCatalog
  settingsPresent := false
  gateway _ := Except.ok {success := false}

/-- Magic-login environment whose JSON body parse throws with message boom. -/
def boomMagicEnv : MagicLoginEnv where
  jsonBody := Except.error {message := "boom"}
  schemaParse _ := none
  appUrl := none
  generateLink _ _ := Except.ok {success := false}
  sendEmail _ _ := Except.ok false
  nodeEnv := "production"

/-- Magic-login environment identical to boomMagicEnv except for the thrown
message. -/
def kaputMagicEnv : MagicLoginEnv :=
  {boomMagicEnv with jsonBody := Except.error {message := "kaput"}}

/-- Link generator result shared by the successful magic-login
environments. -/
def demoGenResult : GenLinkResult :=
  {success := true, loginUrl := some "http://localhost:3000/hesabim/giris?token=t"}

/-- Magic-login environment of a fully successful request running with NODE_ENV
set to test, a non-production mode. -/
def testModeMagicEnv : MagicLoginEnv where
  jsonBody := Except.ok {raw := "body"}
  schemaParse _ := some "user@example.com"
  appUrl := none
  generateLink _ _ := Except.ok demoGenResult
  sendEmail _ _ := Except.ok true
  nodeEnv := "test"

/-- Magic-login environment of the same fully successful request running with
NODE_ENV set to development. -/
def devModeMagicEnv : MagicLoginEnv := {testModeMagicEnv with nodeEnv := "development"}

end Catkapinda

namespace Catkapinda

/-- Step lemma: an item whose id resolves through the catalog to a product row
is judged purely by the relative price comparison. -/
theorem validateItemStep_of_resolve {catalog : Catalog} {item : BasketItem}
    {p : ProductRecord} (h : resolveItem catalog item = some p) :
    validateItemStep catalog item =
      if |p.price - item.price| > p.price * tolerancePercentage then
        Except.error (BasketError.priceMismatch item p p.price item.price)
      else Except.ok p := by
  unfold resolveItem at h
  split at h
  · cases h
  · rename_i pid hp
    split at h
    · cases h
    · rename_i hf
      simp only [validateItemStep, hp]
      rw [if_neg hf, h]

/-- Every failure of the per-item step names the item it was raised for. -/
theorem validateItemStep_error_item {catalog : Catalog} {item : BasketItem}
    {e : BasketError} (h : validateItemStep catalog item = Except.error e) :
    e.item = item := by
  unfold validateItemStep at h
  split at h
  · cases h; rfl
  · split at h
    · cases h; rfl
    · split at h
      · cases h; rfl
      · split at h
        · cases h; rfl
        · cases h

/-- Loop lemma: when every item resolves and sits within the tolerance, the
loop appends the catalog-derived records and adds the catalog prices to the
running total. -/
theorem validateLoop_ok_of_forall₂ (catalog : Catalog) {items : List BasketItem}
    {resolved : List ProductRecord}
    (h : List.Forall₂ (fun it p => resolveItem catalog it = some p ∧
      |p.price - it.price| ≤ p.price * tolerancePercentage) items resolved) :
    ∀ acc total, validateLoop catalog items acc total
      = Except.ok (acc ++ validatedOf items resolved, total + catalogTotal resolved) := by
  induction h with
  | nil => intro acc total; simp [validateLoop, validatedOf, catalogTotal]
  | cons hd tl ih =>
    intro acc total
    obtain ⟨hres, hle⟩ := hd
    have hstep := validateItemStep_of_resolve hres
    rw [if_neg (not_lt.mpr hle)] at hstep
    rw [validateLoop, hstep]
    refine (ih _ _).trans ?_
    simp [validatedOf, catalogTotal, add_assoc, List.append_assoc]

/-- Loop lemma: after a prefix of accepted items, the first failing item
determines the result of the whole loop, whatever follows it. -/
theorem validateLoop_error_of_first (catalog : Catalog) {bad : BasketItem}
    {e : BasketError} (hbad : validateItemStep catalog bad = Except.error e) :
    ∀ pre : List BasketItem,
      (∀ it ∈ pre, ∃ p, validateItemStep catalog it = Except.ok p) →
      ∀ rest acc total,
        validateLoop catalog (pre ++ bad :: rest) acc total = Except.error e := by
  intro pre
  induction pre with
  | nil =>
    intro _ rest acc total
    rw [List.nil_append, validateLoop, hbad]
  | cons a l ih =>
    intro hpre rest acc total
    obtain ⟨p, hp⟩ := hpre a (by simp)
    rw [List.cons_append, validateLoop, hp]
    exact ih (fun it hit => hpre it (by simp [hit])) rest _ _

/-- Rejection by the per-item step with the invalid-format error happens
exactly when the parsed id is falsy, whatever the catalog holds. -/
theorem validateItemStep_invalidFormat_iff (catalog : Catalog) (item : BasketItem) :
    (validateItemStep catalog item = Except.error (BasketError.invalidIdFormat item))
      ↔ jsFalsy (parseCartItemId item.id) = true := by
  unfold validateItemStep
  cases hp : parseCartItemId item.id with
  | none => simp [jsFalsy]
  | some pid =>
    by_cases hf : jsFalsy (some pid) = true
    · simp [hf]
    · cases hl : lookupProduct catalog pid with
      | none => simp [hf, hl]
      | some product =>
        by_cases hc : |product.price - item.price| > product.price * tolerancePercentage
        · simp [hf, hl, hc]
        · simp [hf, hl, hc]

/-- Splitting a character list yields one part per separator occurrence plus
one. -/
theorem splitCharAux_length (sep : Char) :
    ∀ l acc : List Char, (splitCharAux sep l acc).length = l.count sep + 1 := by
  intro l
  induction l with
  | nil => intro acc; simp [splitCharAux]
  | cons c cs ih =>
    intro acc
    by_cases hc : c = sep
    · subst hc; simp [splitCharAux, ih, List.count_cons]
    · simp [splitCharAux, hc, ih, List.count_cons]

/-- Strings with the cart_ prefix split on the underscore into at least two
parts, so the source guard parts.length greater-or-equal 2 always holds for
them. -/
theorem jsSplitChar_length_of_cart (s : String) (h : jsStartsWith s "cart_" = true) :
    2 ≤ (jsSplitChar '_' s).length := by
  have hpre : "cart_".data <+: s.data := List.isPrefixOf_iff_prefix.mp h
  obtain ⟨t, ht⟩ := hpre
  have hmem : '_' ∈ s.data := by
    rw [← ht]
    exact List.mem_append.mpr (Or.inl (by decide))
  have hcount : 0 < s.data.count '_' := List.count_pos_iff.mpr hmem
  rw [jsSplitChar, List.length_map, splitCharAux_length]
  omega

/-- Concrete evaluation: the demo basket of one honest item validates to the
catalog-derived record and the catalog total. -/
theorem demoValidate_ok :
    validateBasketPrices demoCatalog [demoItem77] = Except.ok ([demoValidated77], 100) := by
  have hf : List.Forall₂ (fun it p => resolveItem demoCatalog it = some p ∧
      |p.price - it.price| ≤ p.price * tolerancePercentage) [demoItem77] [demoProduct77] :=
    List.Forall₂.cons
      ⟨by decide, by
        rw [abs_le]
        constructor <;> norm_num [demoProduct77, demoItem77, tolerancePercentage]⟩
      List.Forall₂.nil
  exact (validateLoop_ok_of_forall₂ demoCatalog hf [] 0).trans
    (by simp [validatedOf, catalogTotal, demoItem77, demoProduct77, demoValidated77])

/-- Concrete evaluation: the security section passes the honest demo request
through, sanitized. -/
theorem demoPrepare100 :
    iyzicoPrepare demoCatalog true demoPaymentReq = Except.ok demoSanitizedReq := by
  have hno : totalDifferenceExceeded 100 (100 : ℚ) = false := by
    simp only [totalDifferenceExceeded, decide_eq_false_iff_not, gt_iff_lt, not_lt]
    rw [abs_le]; constructor <;> norm_num
  simp [iyzicoPrepare, demoPaymentReq, demoValidate_ok, hno, demoSanitizedReq]

/-- Concrete evaluation: client total 100.01 against validated total 100 sits
inside the absolute tolerance and passes. -/
theorem demoPrepare10001 :
    iyzicoPrepare demoCatalog true demoReq10001 = Except.ok demoSanitizedReq := by
  have hno : totalDifferenceExceeded 100 (10001 / 100 : ℚ) = false := by
    simp only [totalDifferenceExceeded, decide_eq_false_iff_not, gt_iff_lt, not_lt]
    rw [abs_le]; constructor <;> norm_num
  simp [iyzicoPrepare, demoReq10001, demoPaymentReq, demoValidate_ok, hno, demoSanitizedReq]

/-- Concrete evaluation: client total 100.02 against validated total 100
exceeds the absolute tolerance and is rejected as total manipulation. -/
theorem demoPrepare10002 :
    iyzicoPrepare demoCatalog true demoReq10002
      = Except.error
          {status := 400, success := false,
           error := some (IyzicoError.totalManipulation 100 (10002 / 100))} := by
  have hyes : totalDifferenceExceeded 100 (10002 / 100 : ℚ) = true := by
    simp only [totalDifferenceExceeded, decide_eq_true_eq, gt_iff_lt, lt_abs]
    norm_num
  simp [iyzicoPrepare, demoReq10002, demoPaymentReq, demoValidate_ok, hyes]

end Catkapinda

namespace Catkapinda

/-- C1: for every non-empty basket in which each item resolves to a catalog
product and its client price is within 1 percent of the catalog price, and the
client total is within 0.01 of the summed catalog prices, validateBasketPrices
succeeds with, per input item, the record built from the catalog id, catalog
name, client category and catalog price, the total check passes, and the
calculated total is exactly the sum of the catalog prices (not the client
prices). -/
theorem validateBasketPrices_success (catalog : Catalog) (items : List BasketItem)
    (resolved : List ProductRecord) (clientTotal : ℚ)
    (_hne : items ≠ [])
    (h : List.Forall₂ (fun it p => resolveItem catalog it = some p ∧
      |p.price - it.price| ≤ p.price * tolerancePercentage) items resolved)
    (htotal : |catalogTotal resolved - clientTotal| ≤ 1 / 100) :
    validateBasketPrices catalog items
      = Except.ok (validatedOf items resolved, catalogTotal resolved)
    ∧ totalDifferenceExceeded (catalogTotal resolved) clientTotal = false := by
  constructor
  · rw [validateBasketPrices, validateLoop_ok_of_forall₂ catalog h]
    simp
  · simp only [totalDifferenceExceeded, decide_eq_false_iff_not, gt_iff_lt, not_lt]
    exact htotal

/-- Witness for C1 at the one-item demo basket with client total 100.01. -/
theorem validateBasketPrices_success_witness :
    validateBasketPrices demoCatalog [demoItem77]
      = Except.ok (validatedOf [demoItem77] [demoProduct77], catalogTotal [demoProduct77])
    ∧ totalDifferenceExceeded (catalogTotal [demoProduct77]) (10001 / 100) = false :=
  validateBasketPrices_success demoCatalog [demoItem77] [demoProduct77] (10001 / 100)
    (by simp)
    (List.Forall₂.cons
      ⟨by decide, by
        rw [abs_le]
        constructor <;> norm_num [demoProduct77, demoItem77, tolerancePercentage]⟩
      List.Forall₂.nil)
    (by
      rw [abs_le]
      constructor <;> norm_num [catalogTotal, demoProduct77])

/-- C2: an item that resolves to a catalog product is rejected with the
price-mismatch error exactly when the absolute price difference strictly
exceeds 1 percent of the catalog price; at catalog price 100, client price 101
passes (the difference equals the threshold and the check is strict) while
client price 101.01 fails. -/
theorem validateItemStep_priceMismatch_iff (catalog : Catalog) (item : BasketItem)
    (p : ProductRecord) (h : resolveItem catalog item = some p) :
    (validateItemStep catalog item
        = Except.error (BasketError.priceMismatch item p p.price item.price)
      ↔ |p.price - item.price| > p.price * tolerancePercentage)
    ∧ validateItemStep demoCatalog boundaryItem101 = Except.ok demoProduct77
    ∧ validateItemStep demoCatalog boundaryItem10101
        = Except.error (BasketError.priceMismatch boundaryItem10101 demoProduct77 100
            (10101 / 100)) := by
  refine ⟨?_, ?_, ?_⟩
  · rw [validateItemStep_of_resolve h]
    by_cases hc : |p.price - item.price| > p.price * tolerancePercentage
    · simp [hc]
    · simp [hc]
  · have hres : resolveItem demoCatalog boundaryItem101 = some demoProduct77 := by decide
    have hc : ¬(|demoProduct77.price - boundaryItem101.price|
        > demoProduct77.price * tolerancePercentage) := by
      rw [gt_iff_lt, not_lt, abs_le]
      constructor <;> norm_num [demoProduct77, boundaryItem101, demoItem77, tolerancePercentage]
    rw [validateItemStep_of_resolve hres, if_neg hc]
  · have hres : resolveItem demoCatalog boundaryItem10101 = some demoProduct77 := by decide
    have hc : |demoProduct77.price - boundaryItem10101.price|
        > demoProduct77.price * tolerancePercentage := by
      rw [gt_iff_lt, lt_abs]
      norm_num [demoProduct77, boundaryItem10101, demoItem77, tolerancePercentage]
    rw [validateItemStep_of_resolve hres, if_pos hc]
    simp [demoProduct77, boundaryItem10101, demoItem77]

/-- Witness for C2 at the honest demo item. -/
theorem validateItemStep_priceMismatch_iff_witness :
    (validateItemStep demoCatalog demoItem77
        = Except.error (BasketError.priceMismatch demoItem77 demoProduct77
            demoProduct77.price demoItem77.price)
      ↔ |demoProduct77.price - demoItem77.price|
          > demoProduct77.price * tolerancePercentage)
    ∧ validateItemStep demoCatalog boundaryItem101 = Except.ok demoProduct77
    ∧ validateItemStep demoCatalog boundaryItem10101
        = Except.error (BasketError.priceMismatch boundaryItem10101 demoProduct77 100
            (10101 / 100)) :=
  validateItemStep_priceMismatch_iff demoCatalog demoItem77 demoProduct77 (by decide)

/-- C4: validation processes items in input order and aborts at the first
failing item: the result does not depend on what follows the failure (so no
later item is parsed or looked up), the error names the first offending item,
and the typed result carries no partial validated basket or partial total. -/
theorem validateBasketPrices_first_failure (catalog : Catalog)
    (pre : List BasketItem) (bad : BasketItem) (rest rest' : List BasketItem)
    (e : BasketError)
    (hpre : ∀ it ∈ pre, ∃ p, validateItemStep catalog it = Except.ok p)
    (hbad : validateItemStep catalog bad = Except.error e) :
    validateBasketPrices catalog (pre ++ bad :: rest) = Except.error e
    ∧ validateBasketPrices catalog (pre ++ bad :: rest)
        = validateBasketPrices catalog (pre ++ bad :: rest')
    ∧ e.item = bad := by
  have h1 := validateLoop_error_of_first catalog hbad pre hpre rest [] 0
  have h2 := validateLoop_error_of_first catalog hbad pre hpre rest' [] 0
  exact ⟨h1, h1.trans h2.symm, validateItemStep_error_item hbad⟩

/-- Witness for C4 at the worked example of the spec: catalog prices 100 and
50, client prices 100 and 9999, with a trailing ghost item that is never
reached. -/
theorem validateBasketPrices_first_failure_witness :
    validateBasketPrices demoCatalog [goodItem1, badItem2, ghostItem3]
      = Except.error (BasketError.priceMismatch badItem2 demoProduct2
          demoProduct2.price badItem2.price)
    ∧ validateBasketPrices demoCatalog [goodItem1, badItem2, ghostItem3]
        = validateBasketPrices demoCatalog [goodItem1, badItem2]
    ∧ (BasketError.priceMismatch badItem2 demoProduct2 demoProduct2.price
        badItem2.price).item = badItem2 :=
  validateBasketPrices_first_failure demoCatalog [goodItem1] badItem2 [ghostItem3] []
    (BasketError.priceMismatch badItem2 demoProduct2 demoProduct2.price badItem2.price)
    (by
      intro it hit
      rw [List.mem_singleton] at hit
      subst hit
      refine ⟨demoProduct1, ?_⟩
      have hres : resolveItem demoCatalog goodItem1 = some demoProduct1 := by decide
      have hc : ¬(|demoProduct1.price - goodItem1.price|
          > demoProduct1.price * tolerancePercentage) := by
        rw [gt_iff_lt, not_lt, abs_le]
        constructor <;> norm_num [demoProduct1, goodItem1, tolerancePercentage]
      rw [validateItemStep_of_resolve hres, if_neg hc])
    (by
      have hres : resolveItem demoCatalog badItem2 = some demoProduct2 := by decide
      have hc : |demoProduct2.price - badItem2.price|
          > demoProduct2.price * tolerancePercentage := by
        rw [gt_iff_lt, lt_abs]
        norm_num [demoProduct2, badItem2, tolerancePercentage]
      rw [validateItemStep_of_resolve hres, if_pos hc])

end Catkapinda

namespace Catkapinda

/-- C3: after a successful basket validation, the handler rejects with the
total-manipulation error exactly when the absolute difference of the validated
total and the client amount strictly exceeds the absolute constant 0.01 (not a
percentage); validated total 100 with client total 100.01 passes while 100.02
fails. -/
theorem iyzicoPrepare_totalMismatch_iff (catalog : Catalog) (settingsPresent : Bool)
    (req : PaymentRequest) (vItems : List BasketItem) (vTotal : ℚ)
    (hval : validateBasketPrices catalog req.basketItems = Except.ok (vItems, vTotal)) :
    (iyzicoPrepare catalog settingsPresent req
        = Except.error
            {status := 400, success := false,
             error := some (IyzicoError.totalManipulation vTotal req.amount)}
      ↔ |vTotal - req.amount| > 1 / 100)
    ∧ iyzicoPrepare demoCatalog true demoReq10001 = Except.ok demoSanitizedReq
    ∧ iyzicoPrepare demoCatalog true demoReq10002
        = Except.error
            {status := 400, success := false,
             error := some (IyzicoError.totalManipulation 100 (10002 / 100))} := by
  refine ⟨?_, demoPrepare10001, demoPrepare10002⟩
  simp only [iyzicoPrepare, hval]
  by_cases hc : |vTotal - req.amount| > 1 / 100
  · have ht : totalDifferenceExceeded vTotal req.amount = true := by
      simp only [totalDifferenceExceeded, decide_eq_true_eq]
      exact hc
    rw [gt_iff_lt, one_div] at hc
    simp [ht, hc]
  · have ht : totalDifferenceExceeded vTotal req.amount = false := by
      simp only [totalDifferenceExceeded, decide_eq_false_iff_not]
      exact hc
    rw [gt_iff_lt, not_lt, one_div] at hc
    cases settingsPresent <;> simp [ht, hc]

/-- Witness for C3 at the honest demo request (validated total 100, client
total 100). -/
theorem iyzicoPrepare_totalMismatch_iff_witness :
    (iyzicoPrepare demoCatalog true demoPaymentReq
        = Except.error
            {status := 400, success := false,
             error := some (IyzicoError.totalManipulation 100 demoPaymentReq.amount)}
      ↔ |(100 : ℚ) - demoPaymentReq.amount| > 1 / 100)
    ∧ iyzicoPrepare demoCatalog true demoReq10001 = Except.ok demoSanitizedReq
    ∧ iyzicoPrepare demoCatalog true demoReq10002
        = Except.error
            {status := 400, success := false,
             error := some (IyzicoError.totalManipulation 100 (10002 / 100))} :=
  iyzicoPrepare_totalMismatch_iff demoCatalog true demoPaymentReq [demoValidated77] 100
    demoValidate_ok

/-- C7: whenever the payment handler reaches the gateway call, the request it
passes is the sanitized one: its amount is the calculated total and its basket
items are the validated items of the price validator, never the client-asserted
prices or total. -/
theorem iyzicoGateway_receives_sanitized (env : IyzicoEnv) (raw : RawJson)
    (catalog : Catalog) (pr g : PaymentRequest)
    (h1 : env.jsonBody = Except.ok raw)
    (h2 : env.schemaParse raw = some pr)
    (h3 : env.supabaseClient = Except.ok catalog)
    (h4 : iyzicoPrepare catalog env.settingsPresent pr = Except.ok g) :
    iyzicoPostBody env = Except.map gatewayResponse (env.gateway g)
    ∧ ∃ vItems vTotal,
        validateBasketPrices catalog pr.basketItems = Except.ok (vItems, vTotal)
        ∧ g.amount = vTotal ∧ g.basketItems = vItems
        ∧ g.orderNumber = pr.orderNumber := by
  constructor
  · cases hg : env.gateway g <;>
      simp [iyzicoPostBody, h1, h2, h3, h4, hg, Except.map, Bind.bind, Except.bind,
        Pure.pure, Except.pure]
  · unfold iyzicoPrepare at h4
    split at h4
    · cases h4
    · rename_i vItems vTotal hval
      split at h4
      · cases h4
      · split at h4
        · cases h4
        · rw [Except.ok.injEq] at h4
          subst h4
          exact ⟨vItems, vTotal, hval, rfl, rfl, rfl⟩

/-- Witness for C7 at the all-success demo environment. -/
theorem iyzicoGateway_receives_sanitized_witness :
    iyzicoPostBody demoIyzicoEnv
      = Except.map gatewayResponse (demoIyzicoEnv.gateway demoSanitizedReq)
    ∧ ∃ vItems vTotal,
        validateBasketPrices demoCatalog demoPaymentReq.basketItems
          = Except.ok (vItems, vTotal)
        ∧ demoSanitizedReq.amount = vTotal
        ∧ demoSanitizedReq.basketItems = vItems
        ∧ demoSanitizedReq.orderNumber = demoPaymentReq.orderNumber :=
  iyzicoGateway_receives_sanitized demoIyzicoEnv {raw := "payload"} demoCatalog
    demoPaymentReq demoSanitizedReq rfl rfl rfl demoPrepare100

end Catkapinda

namespace Catkapinda

/-- C5 (code bug): evaluation of the four parser examples of the spec.  Three
behave as specified; the UUID cart id does not: because parseInt(s, 10) parses
the longest digit prefix, the segment 3fa85f64-5717-4562-b3fc-2c963f66afa6
parses to the number 3 and is returned as a legacy id, although it is a
well-formed UUID and the code comments say non-numeric segments are returned as
UUID strings. -/
theorem parseCartItemId_spec_vectors :
    parseCartItemId "cart_42_v_123_xyz" = some (ParsedId.legacy 42)
    ∧ parseCartItemId "cart_3fa85f64-5717-4562-b3fc-2c963f66afa6_v_1_1"
        = some (ParsedId.legacy 3)
    ∧ parseCartItemId "cart_3fa85f64-5717-4562-b3fc-2c963f66afa6_v_1_1"
        ≠ some (ParsedId.uuid "3fa85f64-5717-4562-b3fc-2c963f66afa6")
    ∧ parseCartItemId "not-an-id" = none
    ∧ parseCartItemId "77" = some (ParsedId.legacy 77)
    ∧ uuidPatternTest "3fa85f64-5717-4562-b3fc-2c963f66afa6" = true := by
  refine ⟨by decide, by decide, by decide, by decide, by decide, by decide⟩

/-- C6 counterexample: the input 42abc does not start with cart_, is not a
base-10 numeral of a positive integer as a whole string, yet parseCartItemId
returns the legacy id 42, refuting the whole-string reading of the claim. -/
theorem parseCartItemId_wholeString_counterexample :
    ¬((∃ n : Int, parseCartItemId "42abc" = some (ParsedId.legacy n))
      ↔ wholeStringPosIntNumeral "42abc" = true) := by
  intro hiff
  have h1 : ∃ n : Int, parseCartItemId "42abc" = some (ParsedId.legacy n) :=
    ⟨42, by decide⟩
  have h2 := hiff.mp h1
  have h3 : wholeStringPosIntNumeral "42abc" = false := by decide
  rw [h2] at h3
  cases h3

/-- C6 (amended): for inputs without the cart_ prefix, a legacy id n is
returned exactly when the parseInt prefix parse yields n with n positive
(trailing non-digits are ignored); when the prefix parse yields nothing or a
non-positive value, the string is returned as a UUID exactly when it matches
the 8-4-4-4-12 pattern case-insensitively; otherwise the parse fails. -/
theorem parseCartItemId_direct_characterization (s : String)
    (h : jsStartsWith s "cart_" = false) :
    (∀ n : Int, parseCartItemId s = some (ParsedId.legacy n)
        ↔ (parseIntBase10 s = some n ∧ 0 < n))
    ∧ (parseCartItemId s = some (ParsedId.uuid s)
        ↔ ((∀ n : Int, parseIntBase10 s = some n → n ≤ 0) ∧ uuidPatternTest s = true))
    ∧ (parseCartItemId s = none
        ↔ ((∀ n : Int, parseIntBase10 s = some n → n ≤ 0)
            ∧ uuidPatternTest s = false)) := by
  have hdir : parseCartItemId s
      = (match parseIntBase10 s with
         | some numericId =>
           if numericId > 0 then some (ParsedId.legacy numericId)
           else if uuidPatternTest s then some (ParsedId.uuid s)
           else none
         | none =>
           if uuidPatternTest s then some (ParsedId.uuid s)
           else none) := by
    simp [parseCartItemId, h]
  rw [hdir]
  cases hp : parseIntBase10 s with
  | none => cases ht : uuidPatternTest s <;> simp [ht]
  | some m =>
    by_cases hm : m > 0
    · refine ⟨fun n => ?_, ?_, ?_⟩
      · simp only [if_pos hm, Option.some.injEq, ParsedId.legacy.injEq]
        constructor
        · rintro rfl; exact ⟨rfl, hm⟩
        · rintro ⟨rfl, _⟩; rfl
      · simp only [if_pos hm]
        refine iff_of_false (by simp) ?_
        rintro ⟨fa, _⟩
        have h2 := fa m rfl
        omega
      · simp only [if_pos hm]
        refine iff_of_false (by simp) ?_
        rintro ⟨fa, _⟩
        have h2 := fa m rfl
        omega
    · have fa : ∀ n : Int, some m = some n → n ≤ 0 := by
        intro n hn
        have h2 := Option.some.inj hn
        omega
      cases ht : uuidPatternTest s with
      | true =>
        refine ⟨fun n => ?_, ?_, ?_⟩
        · simp only [if_neg hm, if_pos ht]
          refine iff_of_false (by simp) ?_
          rintro ⟨hn, hpos⟩
          have h2 := Option.some.inj hn
          omega
        · simp only [if_neg hm, if_pos ht]
          exact iff_of_true rfl ⟨fa, by trivial⟩
        · simp only [if_neg hm, if_pos ht]
          refine iff_of_false (by simp) ?_
          rintro ⟨_, hcontra⟩
          cases hcontra
      | false =>
        have htf : ¬(uuidPatternTest s = true) := by simp [ht]
        refine ⟨fun n => ?_, ?_, ?_⟩
        · simp only [if_neg hm, if_neg htf]
          refine iff_of_false (by simp) ?_
          rintro ⟨hn, hpos⟩
          have h2 := Option.some.inj hn
          omega
        · simp only [if_neg hm, if_neg htf]
          refine iff_of_false (by simp) ?_
          rintro ⟨_, hcontra⟩
          cases hcontra
        · simp only [if_neg hm, if_neg htf]
          exact iff_of_true rfl ⟨fa, by trivial⟩

/-- Witness for the amended C6 at the input 9x: the digit prefix 9 wins and a
legacy id is returned although the whole string is not numeric. -/
theorem parseCartItemId_direct_characterization_witness :
    (∀ n : Int, parseCartItemId "9x" = some (ParsedId.legacy n)
        ↔ (parseIntBase10 "9x" = some n ∧ 0 < n))
    ∧ (parseCartItemId "9x" = some (ParsedId.uuid "9x")
        ↔ ((∀ n : Int, parseIntBase10 "9x" = some n → n ≤ 0)
            ∧ uuidPatternTest "9x" = true))
    ∧ (parseCartItemId "9x" = none
        ↔ ((∀ n : Int, parseIntBase10 "9x" = some n → n ≤ 0)
            ∧ uuidPatternTest "9x" = false)) :=
  parseCartItemId_direct_characterization "9x" (by decide)

/-- C10: for every input with the cart_ prefix the parser never returns null:
the result is either a positive legacy id or the second underscore-separated
segment as a string (possibly empty, as for cart_ and cart__x); the validator
rejects such an item with the invalid-format error exactly when the returned
value is falsy; and the segment is returned without any UUID pattern check, as
the non-matching segment zz shows. -/
theorem parseCartItemId_cart_prefix (s : String) (h : jsStartsWith s "cart_" = true) :
    parseCartItemId s ≠ none
    ∧ ((∃ n : Int, 0 < n ∧ parseCartItemId s = some (ParsedId.legacy n))
        ∨ parseCartItemId s = some (ParsedId.uuid ((jsSplitChar '_' s).getD 1 "")))
    ∧ (∀ catalog : Catalog, ∀ item : BasketItem, item.id = s →
        (validateItemStep catalog item = Except.error (BasketError.invalidIdFormat item)
          ↔ jsFalsy (parseCartItemId s) = true))
    ∧ parseCartItemId "cart_" = some (ParsedId.uuid "")
    ∧ parseCartItemId "cart__x" = some (ParsedId.uuid "")
    ∧ parseCartItemId "cart_zz_1" = some (ParsedId.uuid "zz")
    ∧ uuidPatternTest "zz" = false := by
  have hlen := jsSplitChar_length_of_cart s h
  have hshape : parseCartItemId s
      = (match parseIntBase10 ((jsSplitChar '_' s).getD 1 "") with
         | some legacyId =>
           if legacyId > 0 then some (ParsedId.legacy legacyId)
           else some (ParsedId.uuid ((jsSplitChar '_' s).getD 1 ""))
         | none => some (ParsedId.uuid ((jsSplitChar '_' s).getD 1 ""))) := by
    simp [parseCartItemId, h, if_pos hlen]
  refine ⟨?_, ?_, ?_, by decide, by decide, by decide, by decide⟩
  · rw [hshape]
    cases hp : parseIntBase10 ((jsSplitChar '_' s).getD 1 "") with
    | none => simp
    | some m => by_cases hm : m > 0 <;> simp [hm]
  · rw [hshape]
    cases hp : parseIntBase10 ((jsSplitChar '_' s).getD 1 "") with
    | none => exact Or.inr rfl
    | some m =>
      by_cases hm : m > 0
      · exact Or.inl ⟨m, hm, by simp [hm]⟩
      · exact Or.inr (by simp [hm])
  · intro catalog item hid
    have hiff := validateItemStep_invalidFormat_iff catalog item
    rwa [hid] at hiff

/-- Witness for C10 at the cart id cart_abc_1 whose segment abc is kept as a
string. -/
theorem parseCartItemId_cart_prefix_witness :
    parseCartItemId "cart_abc_1" ≠ none
    ∧ ((∃ n : Int, 0 < n ∧ parseCartItemId "cart_abc_1" = some (ParsedId.legacy n))
        ∨ parseCartItemId "cart_abc_1"
            = some (ParsedId.uuid ((jsSplitChar '_' "cart_abc_1").getD 1 "")))
    ∧ (∀ catalog : Catalog, ∀ item : BasketItem, item.id = "cart_abc_1" →
        (validateItemStep catalog item = Except.error (BasketError.invalidIdFormat item)
          ↔ jsFalsy (parseCartItemId "cart_abc_1") = true))
    ∧ parseCartItemId "cart_" = some (ParsedId.uuid "")
    ∧ parseCartItemId "cart__x" = some (ParsedId.uuid "")
    ∧ parseCartItemId "cart_zz_1" = some (ParsedId.uuid "zz")
    ∧ uuidPatternTest "zz" = false :=
  parseCartItemId_cart_prefix "cart_abc_1" (by decide)

/-- C8 (amended): a thrown exception is caught at either handler boundary and
becomes an HTTP 500 response, never propagating raw; the payment handler
answers with its fixed generic message, while the magic-login handler embeds
the exception message after the prefix Sunucu hatasi (falling back to a fixed
word only for an empty message), so its response is not generic. -/
theorem handlers_catch_at_boundary (env : IyzicoEnv) (menv : MagicLoginEnv)
    (e f : JsError)
    (h1 : iyzicoPostBody env = Except.error e)
    (h2 : magicLoginBody menv = Except.error f) :
    iyzicoPost env
      = {status := 500, success := false, error := some IyzicoError.unexpected}
    ∧ magicLoginPost menv
      = {status := 500, success := false,
         error := some ("Sunucu hatası: "
           ++ (if f.message = "" then "Bilinmeyen hata" else f.message))} := by
  constructor
  · simp [iyzicoPost, h1, iyzicoCatchBoundary]
  · simp [magicLoginPost, h2, magicLoginCatch]

/-- Witness for the amended C8 at environments whose body parse throws the
message boom. -/
theorem handlers_catch_at_boundary_witness :
    iyzicoPost boomIyzicoEnv
      = {status := 500, success := false, error := some IyzicoError.unexpected}
    ∧ magicLoginPost boomMagicEnv
      = {status := 500, success := false,
         error := some ("Sunucu hatası: "
           ++ (if (JsError.mk "boom").message = "" then "Bilinmeyen hata"
               else (JsError.mk "boom").message))} :=
  handlers_catch_at_boundary boomIyzicoEnv boomMagicEnv {message := "boom"}
    {message := "boom"} rfl rfl

/-- C8 counterexample: the magic-login 500 body embeds the caught exception
message (boom and kaput produce different bodies), refuting that exception
details are never included in the response. -/
theorem magicLogin_leaks_exception_message :
    (magicLoginPost boomMagicEnv).status = 500
    ∧ (magicLoginPost boomMagicEnv).error = some "Sunucu hatası: boom"
    ∧ (magicLoginPost kaputMagicEnv).error = some "Sunucu hatası: kaput"
    ∧ (magicLoginPost boomMagicEnv).error ≠ (magicLoginPost kaputMagicEnv).error := by
  refine ⟨rfl, rfl, rfl, by decide⟩

/-- C9 (amended): every successful magic-login request answers 200 with the
fixed confirmation message, and the response carries the generated login url
exactly when NODE_ENV is the string development; in every other mode, among
them production and test, the field is absent. -/
theorem magicLogin_success_response (env : MagicLoginEnv) (raw : RawJson)
    (email : String) (g : GenLinkResult)
    (h1 : env.jsonBody = Except.ok raw)
    (h2 : env.schemaParse raw = some email)
    (h3 : env.generateLink email (env.appUrl.getD "http://localhost:3000") = Except.ok g)
    (h4 : g.success = true)
    (h5 : env.sendEmail email g.loginUrl = Except.ok true) :
    magicLoginPost env
      = {status := 200, success := true,
         message := some "Giriş linki oluşturuldu ve e-mail gönderildi. E-mail kutunuzu kontrol edin.",
         loginUrl := if env.nodeEnv = "development" then g.loginUrl else none} := by
  simp [magicLoginPost, magicLoginBody, h1, h2, h3, h4, h5, Bind.bind, Except.bind,
    Pure.pure, Except.pure]

/-- Witness for the amended C9 at the development-mode environment, where the
generated url is echoed. -/
theorem magicLogin_success_response_witness :
    magicLoginPost devModeMagicEnv
      = {status := 200, success := true,
         message := some "Giriş linki oluşturuldu ve e-mail gönderildi. E-mail kutunuzu kontrol edin.",
         loginUrl := if devModeMagicEnv.nodeEnv = "development" then demoGenResult.loginUrl
           else none} :=
  magicLogin_success_response devModeMagicEnv {raw := "body"} "user@example.com"
    demoGenResult rfl rfl rfl rfl rfl

/-- C9 counterexample: with NODE_ENV set to test, a non-production mode, the
successful 200 response omits the generated login url, refuting that the url is
present exactly in non-production modes. -/
theorem magicLogin_nonproduction_counterexample :
    testModeMagicEnv.nodeEnv = "test"
    ∧ testModeMagicEnv.nodeEnv ≠ "production"
    ∧ (magicLoginPost testModeMagicEnv).status = 200
    ∧ (magicLoginPost testModeMagicEnv).success = true
    ∧ (magicLoginPost testModeMagicEnv).loginUrl = none := by
  refine ⟨rfl, by decide, rfl, rfl, rfl⟩

end Catkapinda
